import Mathlib

/-!
# Verification development for the go-tcgplayer client and its dump command

This file gives a shallow embedding, in Lean 4, of the parts of the
repository that the specification talks about:

* `tcgplayer.go` — the authenticated transport (`authTransport.RoundTrip`,
  `authTransport.requestToken`), the envelope policy of `Client.GetRequest`,
  the batched-lookup guards (`GetProductsDetails`, `GetCategoriesDetails`,
  `GetMarketPricesByProducts`, `GetMarketPricesBySKUs`), and the product-type
  tables (`AllProductTypes`, `ProductTypesSingles`, `ProductTypesSealed`);
* the dump command (`run`/`main`) — configuration checks, the sequential
  group pagination loop, the concurrent page producer/worker structure and
  its merge step.

Pure functions are translated as Lean functions; the loops are translated
as structurally recursive functions over an explicit fuel that is always
sufficient (the Go loops advance their index by a fixed positive step);
fallible calls return `Except`.  Time instants and durations are modelled
as integers counting nanoseconds, exactly as Go's `time.Duration`; where
int64 overflow could matter the wrap is explicit.  Network calls are
modelled by oracle functions supplied as parameters.
-/

namespace Tcg

/-! ## Constants (tcgplayer.go lines 20–36) -/

def MaxItemsInResponse : Nat := 100

def MaxIdsInRequest : Nat := 250

def tcgApiVersion : String := "v1.39.0"

def tcgApiTokenURL : String := "https://api.tcgplayer.com/token"

def tcgApiCatalogCategoriesURL : String :=
  "https://api.tcgplayer.com/" ++ tcgApiVersion ++ "/catalog/categories"

def tcgApiCatalogProductsURL : String :=
  "https://api.tcgplayer.com/" ++ tcgApiVersion ++ "/catalog/products"

def tcgApiCatalogGroupsURL : String :=
  "https://api.tcgplayer.com/" ++ tcgApiVersion ++ "/catalog/groups"

def tcgApiPricingProductURL : String :=
  "https://api.tcgplayer.com/" ++ tcgApiVersion ++ "/pricing/product"

def tcgApiPricingSkuURL : String :=
  "https://api.tcgplayer.com/" ++ tcgApiVersion ++ "/pricing/sku"

/-! ## Product type tables (tcgplayer.go lines 126–148) -/

def AllProductTypes : List String :=
  ["Cards",
   "Booster Box",
   "Booster Pack",
   "Sealed Products",
   "Intro Pack",
   "Fat Pack",
   "Box Sets",
   "Precon/Event Decks",
   "Magic Deck Pack",
   "Magic Booster Box Case",
   "All 5 Intro Packs",
   "Intro Pack Display",
   "3x Magic Booster Packs",
   "Booster Battle Pack"]

/-- Go: `var ProductTypesSingles = []string{AllProductTypes[0]}` -/
def ProductTypesSingles : List String := [AllProductTypes[0]!]

/-- Go: `var ProductTypesSealed = AllProductTypes[1:len(AllProductTypes)]` -/
def ProductTypesSealed : List String := AllProductTypes.drop 1

/-! ## Time model

Go's `time.Duration` is an `int64` count of nanoseconds.  We model time
instants and durations as unbounded `Int` nanoseconds and make the int64
wrap explicit where a `Duration` multiplication occurs. -/

def secondNs : Int := 1000000000

def hourNs : Int := 3600 * 1000000000

/-- Two's-complement wrap of an integer into the `int64` range, as Go
arithmetic does on `time.Duration` values. -/
def int64wrap (x : Int) : Int := (x + 2 ^ 63) % 2 ^ 64 - 2 ^ 63

/-! ## authTransport.requestToken (tcgplayer.go lines 181–209)

The body builds a `url.Values` by three `Set` calls and posts it
form-encoded; on success it decodes `{access_token, expires_in}` where
`expires_in` lands in a `time.Duration` field (so it holds the raw JSON
number), and computes `expires = time.Now().Add(response.ExpiresIn * time.Second)`. -/

/-- Go `url.Values.Set`: replace any existing binding of `k`, then add
`(k, v)`.  `url.Values` is a map; we carry the association list in
insertion order. -/
def valuesSet (vs : List (String × String)) (k v : String) : List (String × String) :=
  (vs.filter (fun p => p.1 ≠ k)) ++ [(k, v)]

/-- The form parameters posted by `requestToken` (lines 182–185). -/
def requestTokenParams (publicKey privateKey : String) : List (String × String) :=
  valuesSet (valuesSet (valuesSet [] "grant_type" "client_credentials")
    "client_id" publicKey) "client_secret" privateKey

/-- The expiry computed by `requestToken` (line 207):
`time.Now().Add(response.ExpiresIn * time.Second)` where `ExpiresIn` holds
the raw decoded number and the `Duration` product wraps at int64. -/
def requestTokenExpires (now expiresIn : Int) : Int :=
  now + int64wrap (expiresIn * secondNs)

/-! ## authTransport.RoundTrip token handling (tcgplayer.go lines 221–249)

Lines 222–225 snapshot the shared token/expiry under the read lock into a
local variable; lines 228–233 clear the local copy when
`token != "" || time.Now().After(expires.Add(-1*time.Hour))`; lines
236–249 enter the mutex-guarded block: refresh only when the local copy
still equals the stored token, then adopt the stored token. -/

/-- Lines 227–233: the local invalidation step.
Go: `if token != "" || time.Now().After(expires.Add(-1*time.Hour)) { token = "" }`
(`time.Time.After` is strict `>`). -/
def invalidateLocal (token : String) (now expires : Int) : String :=
  if token ≠ "" ∨ now > expires - hourNs then "" else token

/-- Single-caller view of the token handling in `RoundTrip` (lines 221–251),
assuming the refresh network call would succeed with `freshToken`/`freshExpires`.
Returns the new shared state `(token, expires)`, the token attached to the
outgoing request, and whether `requestToken` was invoked. -/
def roundTripTokenPhase (storedToken : String) (storedExpires : Int) (now : Int)
    (freshToken : String) (freshExpires : Int) : (String × Int) × String × Bool :=
  let token := storedToken
  let token := invalidateLocal token now storedExpires
  if token = "" then
    if token = storedToken then
      ((freshToken, freshExpires), freshToken, true)
    else
      ((storedToken, storedExpires), storedToken, false)
  else
    ((storedToken, storedExpires), token, false)

/-- The notion of invalidity written in the spec and in the code's own
comments: the token is unusable when it is empty or `now` is past
`expires − 1h` (the skew window). -/
def specInvalidToken (token : String) (expires now : Int) : Prop :=
  token = "" ∨ now > expires - hourNs

instance (token : String) (expires now : Int) :
    Decidable (specInvalidToken token expires now) := by
  unfold specInvalidToken; infer_instance

/-! ## The mutex-guarded refresh block (tcgplayer.go lines 236–249)

Every caller reaches line 236 with its local `token` equal to `""`
(see `invalidateLocal_eq_empty` below), so each `RoundTrip` performs
exactly one execution of the critical section, and `t.mtx` serializes
those executions.  The shared state the critical section touches is the
stored token `t.token` plus (for verification) a counter of
`requestToken` invocations; `fresh` is the token the caller would obtain
if it performed the network refresh. -/

/-- One execution of the critical section by one caller whose local token
is `""`: refresh only when the stored token is still `""` (line 240),
then adopt the stored token (line 243).  Returns the new shared state and
the token the caller adopts. -/
def refreshCritStep (storedToken : String) (refreshCount : Nat) (fresh : String) :
    (String × Nat) × String :=
  if storedToken = "" then ((fresh, refreshCount + 1), fresh)
  else ((storedToken, refreshCount), storedToken)

/-- A serialization of the critical sections of a set of concurrent
callers, in the order the mutex granted them; the list carries each
caller's would-be fresh token.  Returns the final shared state and the
token each caller adopted. -/
def refreshCritRun : String → Nat → List String → (String × Nat) × List String
  | t, c, [] => ((t, c), [])
  | t, c, f :: fs =>
    match refreshCritStep t c f with
    | ((t2, c2), tok) =>
      match refreshCritRun t2 c2 fs with
      | (s, toks) => (s, tok :: toks)

/-! ## Response envelope and GetRequest (tcgplayer.go lines 255–287) -/

/-- The uniform response wrapper (lines 255–260); the raw `results`
payload is kept opaque as a string. -/
structure BaseResponse where
  totalItems : Int
  success : Bool
  errors : List String
  results : String
deriving DecidableEq

/-- The envelope policy of `Client.GetRequest` (lines 280–286), given an
already-decoded envelope: fail joining the error strings only when
`resp.StatusCode/200 != 1 && len(response.Errors) > 0`
(Go `strings.Join(errors, " ")`), otherwise hand the envelope back. -/
def GetRequest (statusCode : Nat) (response : BaseResponse) : Except String BaseResponse :=
  if statusCode / 200 ≠ 1 ∧ 0 < response.errors.length then
    .error (String.intercalate " " response.errors)
  else
    .ok response

/-- Follows the spec's words: the HTTP "success class" in its standard
meaning, the 2xx statuses.  Declared only to compare the claim's wording
with the code's `statusCode/200 == 1` check. -/
def specSuccessClass (statusCode : Nat) : Prop :=
  200 ≤ statusCode ∧ statusCode ≤ 299

instance (statusCode : Nat) : Decidable (specSuccessClass statusCode) := by
  unfold specSuccessClass; infer_instance

/-! ## Catalog data records (tcgplayer.go lines 322–571) -/

structure Printing where
  printingId : Int
  name : String
  displayOrder : Int
  modifiedOn : String
deriving DecidableEq

structure SKU where
  skuId : Int
  productId : Int
  languageId : Int
  printingId : Int
  conditionId : Int
deriving DecidableEq

/-- The anonymous struct elements of `Product.ExtendedData`. -/
structure ProductExtendedData where
  name : String
  displayName : String
  value : String
deriving DecidableEq

structure Product where
  productId : Int
  name : String
  cleanName : String
  imageUrl : String
  groupId : Int
  url : String
  modifiedOn : String
  skus : List SKU
  extendedData : List ProductExtendedData
deriving DecidableEq

structure Group where
  groupId : Int
  name : String
  abbreviation : String
  supplemental : Bool
  publishedOn : String
  modifiedOn : String
  categoryId : Int
deriving DecidableEq

structure Category where
  categoryId : Int
  name : String
  modifiedOn : String
  displayName : String
  seoCategoryName : String
  sealedLabel : String
  nonSealedLabel : String
  conditionGuideUrl : String
  isScannable : Bool
  popularity : Int
deriving DecidableEq

/-- Shorthand used in concrete test vectors: a product with the given id
and name and all other fields empty. -/
def mkP (id : Int) (name : String) : Product :=
  ⟨id, name, "", "", 0, "", "", [], []⟩

/-! ## Batched lookups and their id limit (tcgplayer.go lines 363–396,
503–523, 542–562, 573–593)

Each function first guards `len(ids) > MaxIdsInRequest` and only then
builds the request URL and performs the network GET.  We model each
function up to the point the request is issued: the `.ok` value is the
URL of the single GET request the function attempts, and `.error` means
the function returned before any network activity. -/

/-- Go `ints2strings`: decimal rendering of each id. -/
def ints2strings (ids : List Int) : List String :=
  ids.map (fun i => toString i)

def GetProductsDetails (productIds : List Int) (includeSkus : Bool) : Except String String :=
  if productIds.length > MaxIdsInRequest then .error "too many ids in request"
  else
    let ids := ints2strings productIds
    let link := tcgApiCatalogProductsURL ++ "/" ++ String.intercalate "," ids
    let query :=
      if includeSkus then "getExtendedFields=true&includeSkus=true"
      else "getExtendedFields=true"
    .ok (link ++ "?" ++ query)

def GetCategoriesDetails (categoryIds : List Int) : Except String String :=
  if categoryIds.length > MaxIdsInRequest then .error "too many ids in request"
  else
    let ids := ints2strings categoryIds
    .ok (tcgApiCatalogCategoriesURL ++ "/" ++ String.intercalate "," ids)

def GetMarketPricesByProducts (productIds : List Int) : Except String String :=
  if productIds.length > MaxIdsInRequest then .error "too many ids in request"
  else
    let ids := ints2strings productIds
    .ok (tcgApiPricingProductURL ++ "/" ++ String.intercalate "," ids)

def GetMarketPricesBySKUs (skuIds : List Int) : Except String String :=
  if skuIds.length > MaxIdsInRequest then .error "too many ids in request"
  else
    let ids := ints2strings skuIds
    .ok (tcgApiPricingSkuURL ++ "/" ++ String.intercalate "," ids)

/-! ## The dump command's page producer (part_000 lines 92–100)

Go: `for i := 0; i < totalProducts; i += tcgplayer.MaxItemsInResponse { pages <- i }`.
The loop is embedded with an explicit fuel; since the index grows by 100
each iteration, `fuel = totalItems` always suffices. -/

def pageOffsetsAux : Nat → Nat → Nat → List Nat
  | 0, _, _ => []
  | fuel + 1, totalItems, i =>
    if i < totalItems then i :: pageOffsetsAux fuel totalItems (i + MaxItemsInResponse)
    else []

/-- The sequence of page offsets sent on the `pages` channel. -/
def pageOffsets (totalItems : Nat) : List Nat :=
  pageOffsetsAux totalItems totalItems 0

/-! ## The worker loop and merge point (part_000 lines 75–105)

Each worker takes offsets from the channel, fetches the page, and on
error prints to stderr and `continue`s; on success it forwards every item
of the page to the collection channel.  The collector drains the channel
into a list.  Arrival order across workers is nondeterministic, but the
multiset of collected items and the multiset of logged errors depend only
on which offsets were fetched and what each fetch returned, so we model
the collection in offset order; the claims proved about it (counts, the
set of logged errors) are invariant under reordering. -/

def collectPages (fetchPage : Nat → Except String (List Product)) :
    List Nat → List Product × List String
  | [] => ([], [])
  | o :: os =>
    let rest := collectPages fetchPage os
    match fetchPage o with
    | .error e => (rest.1, e :: rest.2)
    | .ok items => (items ++ rest.1, rest.2)

/-! ## The final merge sort (part_000 lines 107–109)

Go: `sort.Slice(products, func(i, j int) bool { return products[i].ProductId < products[j].ProductId })`.
`sort.Slice` guarantees only that the result is a permutation of the
input ordered by the comparison — it is documented as **not** stable.  We
therefore embed it by its contract: a relation between the input slice
and the admissible outputs. -/

/-- The ordering `sort.Slice` establishes with the dump's `less`
function: non-decreasing `ProductId`. -/
def sortedByProductId (l : List Product) : Prop :=
  l.Sorted (fun a b => a.productId ≤ b.productId)

instance (l : List Product) : Decidable (sortedByProductId l) := by
  unfold sortedByProductId; unfold List.Sorted; infer_instance

/-- The contract of the `sort.Slice` call: `out` is a permutation of the
collected items, non-decreasing in `ProductId`.  Any `out` satisfying
this is an admissible result of the unstable sort. -/
def sortSliceSpec (inp out : List Product) : Prop :=
  inp.Perm out ∧ sortedByProductId out

instance (inp out : List Product) : Decidable (sortSliceSpec inp out) := by
  unfold sortSliceSpec; infer_instance

/-! ## The dump command run (part_000 lines 15–134)

`run` parses flags, overlays the environment variables on them (lines
22–29), `log.Fatalln`s (exit status 1, before any network call) on
missing keys or category (lines 31–37), then performs the network phases
in order: category details, total groups, the sequential group pages
(aborting the run with status 1 on any error), total products, the
concurrent product pages (errors only logged), and finally builds the
output record — `output.Category = categories[0]` (line 116) panics when
the decoded category list is empty, and a Go runtime panic terminates
the process with exit status 2 — and encodes it (status 1 on encoder
failure, else 0).  `main` exits with `run`'s return value.  Network
behavior is supplied by an oracle; `runDump` returns the exit status
together with the number of network requests attempted. -/

structure DumpConfig where
  category : Int
  pubFlag : String
  priFlag : String
  pubEnv : String
  priEnv : String
deriving DecidableEq

/-- Lines 22–25: a non-empty `TCGPLAYER_PUBLIC_KEY` overrides the flag. -/
def resolvedPub (cfg : DumpConfig) : String :=
  if cfg.pubEnv ≠ "" then cfg.pubEnv else cfg.pubFlag

/-- Lines 26–29: a non-empty `TCGPLAYER_PRIVATE_KEY` overrides the flag. -/
def resolvedPri (cfg : DumpConfig) : String :=
  if cfg.priEnv ≠ "" then cfg.priEnv else cfg.priFlag

/-- The network calls `run` makes, as oracles. -/
structure DumpOracle where
  catDetails : Except String (List Category)
  totalGroups : Except String Nat
  listGroups : Nat → Except String (List Group)
  totalProducts : Except String Nat
  listProducts : Nat → Except String (List Product)
  encodeOk : Bool

/-- Lines 53–61: `for i := 0; i < totalgroups; i += MaxItemsInResponse`,
appending each page and returning status 1 on the first error.  Embedded
with fuel as for `pageOffsets`; also counts the requests attempted. -/
def groupLoopAux (listGroups : Nat → Except String (List Group)) :
    Nat → Nat → Nat → Except String (List Group) × Nat
  | 0, _, _ => (.ok [], 0)
  | fuel + 1, totalgroups, i =>
    if i < totalgroups then
      match listGroups i with
      | .error e => (.error e, 1)
      | .ok out =>
        match groupLoopAux listGroups fuel totalgroups (i + MaxItemsInResponse) with
        | (.error e, n) => (.error e, n + 1)
        | (.ok rest, n) => (.ok (out ++ rest), n + 1)
    else (.ok [], 0)

def groupLoop (listGroups : Nat → Except String (List Group)) (totalgroups : Nat) :
    Except String (List Group) × Nat :=
  groupLoopAux listGroups totalgroups totalgroups 0

/-- The dump command: exit status and number of network requests
attempted.  The `categories[0]` indexing of line 116 is the match on
`cats` just before encoding: on an empty list Go panics and the process
exits with status 2. -/
def runDump (cfg : DumpConfig) (o : DumpOracle) : Nat × Nat :=
  if resolvedPub cfg = "" ∨ resolvedPri cfg = "" then (1, 0)
  else if cfg.category = 0 then (1, 0)
  else
    match o.catDetails with
    | .error _ => (1, 1)
    | .ok cats =>
      match o.totalGroups with
      | .error _ => (1, 2)
      | .ok tg =>
        match groupLoop o.listGroups tg with
        | (.error _, n) => (1, 2 + n)
        | (.ok _gs, n) =>
          match o.totalProducts with
          | .error _ => (1, 3 + n)
          | .ok tp =>
            let _collected := collectPages o.listProducts (pageOffsets tp)
            let m := (pageOffsets tp).length
            match cats with
            | [] => (2, 3 + n + m)
            | _ :: _ =>
              if o.encodeOk then (0, 3 + n + m) else (1, 3 + n + m)

/-! ## Concrete test vectors -/

deriving instance DecidableEq for Except

/-- A demo page for a run with 250 total items: offset `o` carries
`min 100 (250 - o)` distinct products. -/
def demoPage (o : Nat) : List Product :=
  (List.range (min MaxItemsInResponse (250 - o))).map (fun k => mkP (Int.ofNat (o + k)) "")

/-- A demo fetch for a run with 250 total items in which exactly the page
at offset 100 fails. -/
def demoFetch (o : Nat) : Except String (List Product) :=
  if o = 100 then .error "boom" else .ok (demoPage o)

def demoCategory : Category :=
  ⟨1, "", "", "", "", "", "", "", false, 0⟩

/-- A dump oracle in which every network call succeeds. -/
def demoOracle : DumpOracle :=
  ⟨.ok [demoCategory], .ok 0, fun _ => .ok [], .ok 0, fun _ => .ok [], true⟩

/-- A dump oracle in which every network call succeeds but the category
lookup returns an empty list. -/
def demoOracleNoCats : DumpOracle :=
  ⟨.ok [], .ok 0, fun _ => .ok [], .ok 0, fun _ => .ok [], true⟩

/-! ## Helper lemmas -/

/-- The invalidation step of `RoundTrip` clears the local token copy on
*every* input: when the snapshot is non-empty the first disjunct of the
condition fires, and when it is empty the `else` branch returns the empty
snapshot.  (This is the heart of the bug behind the comment on lines
227–229: the non-empty, still-valid token is the one treated as
invalid.) -/
lemma invalidateLocal_eq_empty (token : String) (now expires : Int) :
    invalidateLocal token now expires = "" := by
  unfold invalidateLocal
  split
  · rfl
  · rename_i h
    push_neg at h
    exact h.1

/-- Once the stored token is non-empty, no later critical section
refreshes: every subsequent caller adopts the stored token unchanged. -/
lemma refreshCritRun_stable (fs : List String) (t : String) (c : Nat) (ht : t ≠ "") :
    refreshCritRun t c fs = ((t, c), fs.map fun _ => t) := by
  induction fs with
  | nil => rfl
  | cons f fs ih =>
    simp only [refreshCritRun, refreshCritStep, if_neg ht, ih, List.map_cons]

/-- Closed form of the page-offset loop, provided the fuel covers the
iteration count. -/
lemma pageOffsetsAux_eq (fuel : Nat) :
    ∀ totalItems i, totalItems ≤ i + MaxItemsInResponse * fuel →
      pageOffsetsAux fuel totalItems i =
        (List.range ((totalItems - i + 99) / 100)).map (fun k => i + 100 * k) := by
  induction fuel with
  | zero =>
    intro totalItems i h
    simp only [MaxItemsInResponse, Nat.mul_zero, Nat.add_zero] at h
    have : (totalItems - i + 99) / 100 = 0 := by omega
    simp [pageOffsetsAux, this]
  | succ fuel ih =>
    intro totalItems i h
    simp only [MaxItemsInResponse] at h ⊢
    unfold pageOffsetsAux
    split
    · rename_i hi
      rw [ih totalItems (i + MaxItemsInResponse) (by simp only [MaxItemsInResponse]; omega)]
      have hcount : (totalItems - i + 99) / 100
          = (totalItems - (i + MaxItemsInResponse) + 99) / 100 + 1 := by
        simp only [MaxItemsInResponse]; omega
      rw [hcount, List.range_succ_eq_map, List.map_cons, List.map_map]
      refine congrArg₂ _ (by omega) ?_
      refine congrArg₂ _ ?_ rfl
      funext k
      simp only [Function.comp, MaxItemsInResponse]
      omega
    · rename_i hi
      have : (totalItems - i + 99) / 100 = 0 := by omega
      simp [this]

/-- Closed form of `pageOffsets`. -/
lemma pageOffsets_eq (totalItems : Nat) :
    pageOffsets totalItems =
      (List.range ((totalItems + 99) / 100)).map (fun k => 100 * k) := by
  unfold pageOffsets
  rw [pageOffsetsAux_eq totalItems totalItems 0
    (by simp only [MaxItemsInResponse]; omega)]
  simp

lemma pageOffsets_length (totalItems : Nat) :
    (pageOffsets totalItems).length = (totalItems + 99) / 100 := by
  rw [pageOffsets_eq]; simp

lemma pageOffsets_mem (totalItems o : Nat) :
    o ∈ pageOffsets totalItems ↔ o < totalItems ∧ MaxItemsInResponse ∣ o := by
  rw [pageOffsets_eq]
  simp only [List.mem_map, List.mem_range, MaxItemsInResponse]
  constructor
  · rintro ⟨k, hk, rfl⟩
    exact ⟨by omega, ⟨k, rfl⟩⟩
  · rintro ⟨ho, k, rfl⟩
    exact ⟨k, by omega, rfl⟩

lemma pageOffsets_nodup (totalItems : Nat) : (pageOffsets totalItems).Nodup := by
  rw [pageOffsets_eq]
  exact (List.nodup_range _).map (fun a b h => by omega)

/-- Summing the page sizes over the generated offsets recovers the
remaining item count. -/
lemma pageOffsetsAux_sum (fuel : Nat) :
    ∀ totalItems i, totalItems ≤ i + MaxItemsInResponse * fuel →
      ((pageOffsetsAux fuel totalItems i).map
        (fun o => min MaxItemsInResponse (totalItems - o))).sum = totalItems - i := by
  induction fuel with
  | zero =>
    intro totalItems i h
    simp only [MaxItemsInResponse, Nat.mul_zero, Nat.add_zero] at h
    simp [pageOffsetsAux]
    omega
  | succ fuel ih =>
    intro totalItems i h
    unfold pageOffsetsAux
    split
    · rename_i hi
      rw [List.map_cons, List.sum_cons,
        ih totalItems (i + MaxItemsInResponse) (by simp only [MaxItemsInResponse] at h ⊢; omega)]
      simp only [MaxItemsInResponse] at h ⊢
      omega
    · rename_i hi
      simp only [List.map_nil, List.sum_nil]
      omega

lemma pageOffsets_sum (totalItems : Nat) :
    ((pageOffsets totalItems).map
      (fun o => min MaxItemsInResponse (totalItems - o))).sum = totalItems := by
  unfold pageOffsets
  rw [pageOffsetsAux_sum totalItems totalItems 0 (by simp only [MaxItemsInResponse]; omega)]
  omega

/-- When every fetch succeeds, the collector gathers every page's items
and logs nothing. -/
lemma collectPages_ok (fetchPage : Nat → Except String (List Product))
    (pageOf : Nat → List Product) :
    ∀ offs : List Nat, (∀ o ∈ offs, fetchPage o = .ok (pageOf o)) →
      collectPages fetchPage offs = ((offs.map pageOf).flatten, []) := by
  intro offs
  induction offs with
  | nil => intro _; rfl
  | cons o os ih =>
    intro h
    have ho := h o (List.mem_cons_self o os)
    have hrest := ih (fun o' ho' => h o' (List.mem_cons_of_mem o ho'))
    simp only [collectPages, hrest, ho, List.map_cons, List.flatten_cons]

/-- When exactly one offset fails and the rest return their pages, the
collector gathers everything but the failed page and logs exactly the one
error message. -/
lemma collectPages_one_bad (fetchPage : Nat → Except String (List Product))
    (pageOf : Nat → List Product) (bad : Nat) (msg : String) :
    ∀ offs : List Nat, offs.Nodup → bad ∈ offs →
      fetchPage bad = .error msg →
      (∀ o ∈ offs, o ≠ bad → fetchPage o = .ok (pageOf o)) →
      (collectPages fetchPage offs).1.length
          = (offs.map (fun o => (pageOf o).length)).sum - (pageOf bad).length
      ∧ (collectPages fetchPage offs).2 = [msg] := by
  intro offs
  induction offs with
  | nil => intro _ hbad; cases hbad
  | cons o os ih =>
    intro hnd hbad hfb hok
    have hnd' := List.nodup_cons.mp hnd
    by_cases hob : o = bad
    · subst hob
      have hrest : collectPages fetchPage os = ((os.map pageOf).flatten, []) := by
        refine collectPages_ok fetchPage pageOf os (fun o' ho' => ?_)
        refine hok o' (List.mem_cons_of_mem o ho') (fun he => ?_)
        exact hnd'.1 (he ▸ ho')
      constructor
      · simp only [collectPages, hrest, hfb, List.length_flatten, List.map_cons,
          List.sum_cons, List.map_map, Function.comp_def]
        omega
      · simp only [collectPages, hrest, hfb]
    · have hbad' : bad ∈ os := by
        rcases List.mem_cons.mp hbad with h | h
        · exact absurd h.symm hob
        · exact h
      have ho := hok o (List.mem_cons_self o os) hob
      obtain ⟨ihlen, ihlog⟩ := ih hnd'.2 hbad' hfb
        (fun o' ho' hne => hok o' (List.mem_cons_of_mem o ho') hne)
      have hle : (pageOf bad).length ≤ (os.map (fun o' => (pageOf o').length)).sum := by
        refine List.single_le_sum (fun x _ => Nat.zero_le x) _ ?_
        exact List.mem_map.mpr ⟨bad, hbad', rfl⟩
      constructor
      · simp only [collectPages, ho, ihlog, List.length_append, ihlen,
          List.map_cons, List.sum_cons]
        omega
      · simp only [collectPages, ho, ihlog]

/-- Strict key-sortedness follows from lax sortedness plus distinct
keys. -/
lemma sorted_lt_of_sorted_le_nodup (l : List Product)
    (hs : sortedByProductId l) (hn : (l.map Product.productId).Nodup) :
    l.Sorted (fun a b : Product => a.productId < b.productId) := by
  have hne : l.Pairwise (fun a b : Product => a.productId ≠ b.productId) := by
    rw [List.Nodup, List.pairwise_map] at hn
    exact hn
  exact (hs.and hne).imp (fun h => lt_of_le_of_ne h.1 h.2)

instance : IsAntisymm Product (fun a b : Product => a.productId < b.productId) :=
  ⟨fun _ _ h h2 => absurd h2 (not_lt_of_gt h)⟩

/-! ## Claim theorems -/

/-- C1: the claim says the stored token is treated as invalid (forcing
the refresh path) exactly when it is empty or `now` is within one hour of
the stored expiry, and that otherwise the token is reused.  The code does
not do this: `requestToken` is invoked exactly when the *stored* token is
empty, regardless of expiry (first conjunct), so at the failing input —
stored token `"abc"`, expiry `0`, `now` ten hours later, which the
spec's own invalidity notion classifies as invalid (third conjunct) —
the stale token is attached unchanged and no refresh happens (second
conjunct). -/
theorem roundTrip_refresh_only_when_stored_empty :
    (∀ (storedToken freshToken : String) (storedExpires now freshExpires : Int),
      ((roundTripTokenPhase storedToken storedExpires now freshToken freshExpires).2.2 = true
        ↔ storedToken = ""))
    ∧ roundTripTokenPhase "abc" 0 (10 * hourNs) "fresh" (11 * hourNs)
        = (("abc", 0), "abc", false)
    ∧ specInvalidToken "abc" 0 (10 * hourNs) := by
  refine ⟨?_, by decide, by decide⟩
  intro storedToken freshToken storedExpires now freshExpires
  by_cases hs : storedToken = ""
  · subst hs
    simp [roundTripTokenPhase, invalidateLocal_eq_empty]
  · simp [roundTripTokenPhase, invalidateLocal_eq_empty, hs, Ne.symm hs]

/-- C2: for every serialization of the critical sections of concurrent
`RoundTrip` callers (each caller reaches the mutex-guarded block with an
empty local token, by `invalidateLocal_eq_empty`), the refresh counter
grows by at most one from any starting state as long as refreshes return
non-empty tokens; and starting from an empty stored token, exactly the
first caller refreshes and every caller adopts the token that refresh
wrote. -/
theorem singleFlightRefresh :
    (∀ (t : String) (c : Nat) (fs : List String), (∀ f ∈ fs, f ≠ "") →
      (refreshCritRun t c fs).1.2 ≤ c + 1)
    ∧ (∀ (f : String) (fs : List String), f ≠ "" →
      refreshCritRun "" 0 (f :: fs) = ((f, 1), (f :: fs).map fun _ => f)) := by
  constructor
  · intro t c fs hfs
    by_cases ht : t = ""
    · subst ht
      cases fs with
      | nil => simp [refreshCritRun]
      | cons f fs =>
        have hf : f ≠ "" := hfs f (List.mem_cons_self f fs)
        simp [refreshCritRun, refreshCritStep, refreshCritRun_stable fs f (c + 1) hf]
    · rw [refreshCritRun_stable fs t c ht]
      simp
  · intro f fs hf
    simp [refreshCritRun, refreshCritStep, refreshCritRun_stable fs f 1 hf]

/-- Witness for C2 at concrete inputs. -/
theorem singleFlightRefresh_w :
    (refreshCritRun "" 0 ["t1", "t2", "t3"]).1.2 ≤ 0 + 1
    ∧ refreshCritRun "" 0 ("tok" :: ["next"])
        = (("tok", 1), ("tok" :: ["next"]).map fun _ => "tok") :=
  ⟨singleFlightRefresh.1 "" 0 ["t1", "t2", "t3"] (by decide),
   singleFlightRefresh.2 "tok" ["next"] (by decide)⟩

/-- C3, counterexample to the claim as stated: with "success class" in
its standard HTTP meaning (the 2xx statuses), status 300 with a non-empty
error list should fail, but `GetRequest` returns the envelope: the code's
check `statusCode/200 == 1` treats every status in 200–399 as success. -/
theorem GetRequest_redirect_counterexample :
    ¬ specSuccessClass 300
    ∧ (BaseResponse.mk 0 false ["boom"] "").errors ≠ []
    ∧ GetRequest 300 (BaseResponse.mk 0 false ["boom"] "")
        = .ok (BaseResponse.mk 0 false ["boom"] "") := by
  refine ⟨by decide, by decide, rfl⟩

/-- C3, amended: `GetRequest` fails with the envelope's error strings
joined by single spaces if and only if the status code lies outside
200–399 (the class accepted by `statusCode/200 == 1`) and the error list
is non-empty; in every other case it returns the decoded envelope. -/
theorem GetRequest_error_policy :
    (∀ (statusCode : Nat) (response : BaseResponse),
      ¬(200 ≤ statusCode ∧ statusCode ≤ 399) → response.errors ≠ [] →
      GetRequest statusCode response
        = .error (String.intercalate " " response.errors))
    ∧ (∀ (statusCode : Nat) (response : BaseResponse),
      (200 ≤ statusCode ∧ statusCode ≤ 399) ∨ response.errors = [] →
      GetRequest statusCode response = .ok response) := by
  constructor
  · intro s r h1 h2
    unfold GetRequest
    rw [if_pos]
    exact ⟨by omega, List.length_pos.mpr h2⟩
  · intro s r h
    unfold GetRequest
    rw [if_neg]
    rintro ⟨hd, hl⟩
    rcases h with h | h
    · exact hd (by omega)
    · rw [h] at hl
      simp at hl

/-- Witness for C3's amended theorem at concrete inputs. -/
theorem GetRequest_error_policy_w :
    GetRequest 500 (BaseResponse.mk 0 false ["a", "b"] "")
      = .error (String.intercalate " " (BaseResponse.mk 0 false ["a", "b"] "").errors)
    ∧ GetRequest 204 (BaseResponse.mk 0 true ["a"] "")
      = .ok (BaseResponse.mk 0 true ["a"] "") :=
  ⟨GetRequest_error_policy.1 500 (BaseResponse.mk 0 false ["a", "b"] "")
     (by omega) (by decide),
   GetRequest_error_policy.2 204 (BaseResponse.mk 0 true ["a"] "")
     (Or.inl (by omega))⟩

/-- C4: each batched-lookup operation fails with "too many ids in
request" — and issues no network request — exactly when the id list is
longer than `MaxIdsInRequest = 250`; at 250 ids or fewer the guard passes
and the single GET request is attempted. -/
theorem batchedLookup_limit :
    ∀ (ids : List Int) (includeSkus : Bool),
      (ids.length > MaxIdsInRequest →
        GetProductsDetails ids includeSkus = .error "too many ids in request"
        ∧ GetCategoriesDetails ids = .error "too many ids in request"
        ∧ GetMarketPricesByProducts ids = .error "too many ids in request"
        ∧ GetMarketPricesBySKUs ids = .error "too many ids in request")
      ∧ (ids.length ≤ MaxIdsInRequest →
        (∃ link, GetProductsDetails ids includeSkus = .ok link)
        ∧ (∃ link, GetCategoriesDetails ids = .ok link)
        ∧ (∃ link, GetMarketPricesByProducts ids = .ok link)
        ∧ (∃ link, GetMarketPricesBySKUs ids = .ok link)) := by
  intro ids includeSkus
  constructor
  · intro h
    refine ⟨?_, ?_, ?_, ?_⟩
    · unfold GetProductsDetails; rw [if_pos h]
    · unfold GetCategoriesDetails; rw [if_pos h]
    · unfold GetMarketPricesByProducts; rw [if_pos h]
    · unfold GetMarketPricesBySKUs; rw [if_pos h]
  · intro h
    have h' : ¬ ids.length > MaxIdsInRequest := not_lt.mpr h
    refine ⟨?_, ?_, ?_, ?_⟩
    · unfold GetProductsDetails; rw [if_neg h']; exact ⟨_, rfl⟩
    · unfold GetCategoriesDetails; rw [if_neg h']; exact ⟨_, rfl⟩
    · unfold GetMarketPricesByProducts; rw [if_neg h']; exact ⟨_, rfl⟩
    · unfold GetMarketPricesBySKUs; rw [if_neg h']; exact ⟨_, rfl⟩

/-- Witness for C4: a 251-element list is rejected, a 3-element list is
accepted. -/
theorem batchedLookup_limit_w :
    GetProductsDetails ((List.range 251).map Int.ofNat) true
      = .error "too many ids in request"
    ∧ (∃ link, GetCategoriesDetails [1, 2, 3] = .ok link) :=
  ⟨((batchedLookup_limit ((List.range 251).map Int.ofNat) true).1
      (by norm_num [MaxIdsInRequest])).1,
   ((batchedLookup_limit [1, 2, 3] true).2 (by norm_num [MaxIdsInRequest])).2.1⟩

/-- C5: the page producer generates exactly `ceil(totalItems/100)`
offsets, the multiples of 100 strictly below `totalItems`, each exactly
once; for 250 total items the offsets are exactly `[0, 100, 200]`. -/
theorem pageOffsets_spec :
    (∀ totalItems : Nat, (pageOffsets totalItems).length = (totalItems + 99) / 100)
    ∧ (∀ totalItems o : Nat,
        o ∈ pageOffsets totalItems ↔ o < totalItems ∧ MaxItemsInResponse ∣ o)
    ∧ (∀ totalItems : Nat, (pageOffsets totalItems).Nodup)
    ∧ pageOffsets 250 = [0, 100, 200] :=
  ⟨pageOffsets_length, pageOffsets_mem, pageOffsets_nodup, by decide⟩

/-- C6: when the fetch of exactly one page offset fails and every other
page fetch returns its full page, the run does not abort: the error
message is the only one logged, the remaining pages are all collected,
and the final product count is `totalItems` minus the number of items on
the failed page. -/
theorem singlePageFailure :
    ∀ (totalItems bad : Nat) (fetchPage : Nat → Except String (List Product))
      (pageOf : Nat → List Product) (msg : String),
      bad ∈ pageOffsets totalItems →
      fetchPage bad = .error msg →
      (∀ o ∈ pageOffsets totalItems, o ≠ bad → fetchPage o = .ok (pageOf o)) →
      (∀ o ∈ pageOffsets totalItems,
        (pageOf o).length = min MaxItemsInResponse (totalItems - o)) →
      (collectPages fetchPage (pageOffsets totalItems)).1.length
          = totalItems - min MaxItemsInResponse (totalItems - bad)
      ∧ (collectPages fetchPage (pageOffsets totalItems)).2 = [msg] := by
  intro totalItems bad fetchPage pageOf msg hbad hfb hok hlen
  obtain ⟨h1, h2⟩ := collectPages_one_bad fetchPage pageOf bad msg
    (pageOffsets totalItems) (pageOffsets_nodup totalItems) hbad hfb hok
  refine ⟨?_, h2⟩
  rw [h1, List.map_congr_left hlen, pageOffsets_sum, hlen bad hbad]

/-- Witness for C6: 250 items, the page at offset 100 fails; 150 products
are collected and exactly the one error is logged. -/
theorem singlePageFailure_w :
    (collectPages demoFetch (pageOffsets 250)).1.length
        = 250 - min MaxItemsInResponse (250 - 100)
    ∧ (collectPages demoFetch (pageOffsets 250)).2 = ["boom"] :=
  singlePageFailure 250 100 demoFetch demoPage "boom"
    (by decide) (by decide) (by decide) (by decide)

/-- C7, counterexample to the claim as stated: `sort.Slice` is
documented as not stable, so its contract (a permutation ordered by the
`less` function) admits, for the already-sorted input
`[mkP 1 "a", mkP 1 "b"]`, the distinct output `[mkP 1 "b", mkP 1 "a"]` —
sorting an already-sorted sequence need not yield the same sequence, and
the output is not determined by the multiset of fetched items. -/
theorem sortSlice_unstable_counterexample :
    sortedByProductId [mkP 1 "a", mkP 1 "b"]
    ∧ sortSliceSpec [mkP 1 "a", mkP 1 "b"] [mkP 1 "b", mkP 1 "a"]
    ∧ [mkP 1 "b", mkP 1 "a"] ≠ [mkP 1 "a", mkP 1 "b"] := by
  refine ⟨by decide, by decide, by decide⟩

/-- C7, amended: the final merge orders products ascending by
`ProductId` under the (unstable) `sort.Slice` contract; whenever the
fetched items have pairwise distinct `ProductId`s — as catalog products
do — the admissible output is unique, hence identical regardless of the
order in which concurrent workers delivered the items, and sorting an
already-sorted sequence yields the same sequence. -/
theorem sortSlice_deterministic :
    (∀ (l1 l2 out1 out2 : List Product),
      (l1.map Product.productId).Nodup → l1.Perm l2 →
      sortSliceSpec l1 out1 → sortSliceSpec l2 out2 → out1 = out2)
    ∧ (∀ (l out : List Product),
      (l.map Product.productId).Nodup → sortedByProductId l →
      sortSliceSpec l out → out = l) := by
  have key : ∀ (l1 l2 out1 out2 : List Product),
      (l1.map Product.productId).Nodup → l1.Perm l2 →
      sortSliceSpec l1 out1 → sortSliceSpec l2 out2 → out1 = out2 := by
    intro l1 l2 out1 out2 hnd hperm h1 h2
    have hp : out1.Perm out2 := (h1.1.symm.trans hperm).trans h2.1
    have hnd1 : (out1.map Product.productId).Nodup :=
      (h1.1.map Product.productId).nodup_iff.mp hnd
    have hnd2 : (out2.map Product.productId).Nodup :=
      (hp.map Product.productId).nodup_iff.mp hnd1
    exact List.eq_of_perm_of_sorted hp
      (sorted_lt_of_sorted_le_nodup out1 h1.2 hnd1)
      (sorted_lt_of_sorted_le_nodup out2 h2.2 hnd2)
  refine ⟨key, ?_⟩
  intro l out hnd hs hspec
  exact key l l out l hnd (List.Perm.refl l) hspec ⟨List.Perm.refl l, hs⟩

/-- Witness for C7's amended theorem at concrete inputs. -/
theorem sortSlice_deterministic_w :
    ([mkP 2 "x", mkP 1 "y"].map Product.productId).Nodup
    ∧ [mkP 1 "y", mkP 2 "x"] = [mkP 1 "y", mkP 2 "x"] :=
  ⟨by decide,
   sortSlice_deterministic.1 [mkP 2 "x", mkP 1 "y"] [mkP 1 "y", mkP 2 "x"]
     [mkP 1 "y", mkP 2 "x"] [mkP 1 "y", mkP 2 "x"]
     (by decide) (by decide) (by decide) (by decide)⟩

/-- C8: when the resolved public or private key (environment variables
overlaid on flags) is empty, or the category id is 0, the dump command
exits with status 1 having attempted no network request; on a fully
successful run — in particular the category lookup returned a non-empty
list, so the `categories[0]` indexing of line 116 does not panic — it
exits with status 0.  The final conjunct records the panic path itself:
with an empty decoded category list and every phase succeeding the
process exits with the Go runtime-panic status 2, not 0. -/
theorem runDump_exit_codes :
    (∀ (cfg : DumpConfig) (o : DumpOracle),
      resolvedPub cfg = "" ∨ resolvedPri cfg = "" → runDump cfg o = (1, 0))
    ∧ (∀ (cfg : DumpConfig) (o : DumpOracle),
      cfg.category = 0 → runDump cfg o = (1, 0))
    ∧ (∀ (cfg : DumpConfig) (o : DumpOracle) (cats : List Category)
        (tg : Nat) (gs : List Group) (n : Nat) (tp : Nat),
      ¬(resolvedPub cfg = "" ∨ resolvedPri cfg = "") → cfg.category ≠ 0 →
      o.catDetails = .ok cats → cats ≠ [] → o.totalGroups = .ok tg →
      groupLoop o.listGroups tg = (.ok gs, n) →
      o.totalProducts = .ok tp → o.encodeOk = true →
      (runDump cfg o).1 = 0)
    ∧ (∀ (cfg : DumpConfig) (o : DumpOracle)
        (tg : Nat) (gs : List Group) (n : Nat) (tp : Nat),
      ¬(resolvedPub cfg = "" ∨ resolvedPri cfg = "") → cfg.category ≠ 0 →
      o.catDetails = .ok [] → o.totalGroups = .ok tg →
      groupLoop o.listGroups tg = (.ok gs, n) →
      o.totalProducts = .ok tp →
      (runDump cfg o).1 = 2) := by
  refine ⟨?_, ?_, ?_, ?_⟩
  · intro cfg o h
    unfold runDump
    rw [if_pos h]
  · intro cfg o h
    unfold runDump
    by_cases hk : resolvedPub cfg = "" ∨ resolvedPri cfg = ""
    · rw [if_pos hk]
    · rw [if_neg hk, if_pos h]
  · intro cfg o cats tg gs n tp hk hc h1 hcats h2 h3 h4 h5
    unfold runDump
    rw [if_neg hk, if_neg hc]
    cases cats with
    | nil => exact absurd rfl hcats
    | cons c cs => simp [h1, h2, h3, h4, h5]
  · intro cfg o tg gs n tp hk hc h1 h2 h3 h4
    unfold runDump
    rw [if_neg hk, if_neg hc]
    simp [h1, h2, h3, h4]

/-- Witness for C8 at concrete inputs: missing keys, missing category, a
fully successful run, and a run whose category lookup comes back
empty. -/
theorem runDump_exit_codes_w :
    runDump ⟨5, "", "", "", ""⟩ demoOracle = (1, 0)
    ∧ runDump ⟨0, "p", "k", "", ""⟩ demoOracle = (1, 0)
    ∧ (runDump ⟨1, "p", "k", "", ""⟩ demoOracle).1 = 0
    ∧ (runDump ⟨1, "p", "k", "", ""⟩ demoOracleNoCats).1 = 2 :=
  ⟨runDump_exit_codes.1 ⟨5, "", "", "", ""⟩ demoOracle (by decide),
   runDump_exit_codes.2.1 ⟨0, "p", "k", "", ""⟩ demoOracle (by decide),
   runDump_exit_codes.2.2.1 ⟨1, "p", "k", "", ""⟩ demoOracle [demoCategory] 0 [] 0 0
     (by decide) (by decide) rfl (by decide) rfl rfl rfl rfl,
   runDump_exit_codes.2.2.2 ⟨1, "p", "k", "", ""⟩ demoOracleNoCats 0 [] 0 0
     (by decide) (by decide) rfl rfl rfl rfl⟩

/-- C9: the token request posts exactly the form parameters
`grant_type=client_credentials`, `client_id=publicKey`,
`client_secret=privateKey`, and on a successful response the computed
expiry is the current time plus `expires_in` seconds (for any
`expires_in` whose nanosecond count fits in int64). -/
theorem requestToken_spec :
    (∀ publicKey privateKey : String,
      requestTokenParams publicKey privateKey =
        [("grant_type", "client_credentials"), ("client_id", publicKey),
         ("client_secret", privateKey)])
    ∧ (∀ now expiresIn : Int, 0 ≤ expiresIn → expiresIn * secondNs < 2 ^ 63 →
      requestTokenExpires now expiresIn = now + expiresIn * secondNs) := by
  constructor
  · intro publicKey privateKey
    rfl
  · intro now expiresIn h1 h2
    unfold requestTokenExpires int64wrap
    unfold secondNs at h2 ⊢
    omega

/-- Witness for C9's expiry computation at a concrete input. -/
theorem requestToken_spec_w :
    requestTokenExpires 1000 86400 = 1000 + 86400 * secondNs :=
  requestToken_spec.2 1000 86400 (by norm_num) (by norm_num [secondNs])

/-- C10: `ProductTypesSingles` is exactly `["Cards"]` (the first element
of `AllProductTypes`), `ProductTypesSealed` is exactly the remaining 13
elements in order, and their concatenation is `AllProductTypes`, so the
two lists partition it. -/
theorem productTypes_partition :
    ProductTypesSingles = ["Cards"]
    ∧ ProductTypesSealed = AllProductTypes.drop 1
    ∧ ProductTypesSealed.length = 13
    ∧ AllProductTypes.length = 14
    ∧ ProductTypesSingles ++ ProductTypesSealed = AllProductTypes := by
  refine ⟨by decide, rfl, by decide, by decide, by decide⟩

end Tcg
